import Mathlib

/-!
Shallow embedding of src/pubmed/pubmed-scraper.py and verification of the
specification claims about it.

The program scrapes abstract pages, extracts (bold label, body) segments from
every element matched by a CSS selector, and append-merges one record per
section into a CSV dataset.  Pure fragments of the Python code are translated
into Lean functions; the file system, the pandas CSV layer and the per-request
HTML session are modelled as explicit state.
-/

namespace Pubmed

/-! ## Python string primitives

The scraper manipulates text with Python `str.replace(old, "")` and
`str.strip()`.  Characters are modelled as Lean `Char`, strings as `String`
over their `List Char` data. -/

/-- Python `str.replace(old, "")` restricted to a non-empty pattern: delete all
non-overlapping occurrences of `pat`, scanning left to right.  `fuel` bounds
the recursion; each step consumes at least one character of `s`, so
`fuel = s.length` is always enough. -/
def removeAllFuel (pat : List Char) : Nat → List Char → List Char
  | 0, s => s
  | _ + 1, [] => []
  | fuel + 1, c :: rest =>
    if pat.isPrefixOf (c :: rest) then
      removeAllFuel pat fuel (List.drop (pat.length - 1) rest)
    else
      c :: removeAllFuel pat fuel rest

/-- Python `s.replace(pat, "")`: with an empty `pat` and an empty replacement,
Python returns `s` unchanged; otherwise every occurrence of `pat` is deleted. -/
def removeAll (pat s : List Char) : List Char :=
  match pat with
  | [] => s
  | _ :: _ => removeAllFuel pat s.length s

/-- String-level wrapper for Python `s.replace(pat, "")`. -/
def pyReplaceDel (pat s : String) : String :=
  String.mk (removeAll pat.data s.data)

/-- Drop trailing whitespace characters, keeping everything else. -/
def dropTrailingWs : List Char → List Char
  | [] => []
  | c :: rest =>
    match dropTrailingWs rest with
    | [] => if c.isWhitespace then [] else [c]
    | b :: r => c :: b :: r

/-- Python `str.strip()` on character lists: drop leading whitespace, then
trailing whitespace. -/
def pyStripList (s : List Char) : List Char :=
  dropTrailingWs (s.dropWhile Char.isWhitespace)

/-- Python `s.strip()` at the `String` level. -/
def pyStrip (s : String) : String :=
  String.mk (pyStripList s.data)

/-- True when the string does not start with a whitespace character. -/
def noLeadingWs (s : String) : Bool :=
  match s.data with
  | [] => true
  | c :: _ => !c.isWhitespace

/-- True when the string does not end with a whitespace character. -/
def noTrailingWs (s : String) : Bool :=
  match s.data.getLast? with
  | none => true
  | some c => !c.isWhitespace

/-! ## Segment extraction (`parse_pub_entry_data`, lines 70-98)

A matched element `p` is abstracted by the data the code reads from it: the
text of each element of `p.find("strong")` in document order, and the
whitespace-normalised full text `p.text`. -/

/-- Dataclass `PubEntry` of the scraper. -/
structure PubEntry where
  bold_text : String
  content_text : String
deriving DecidableEq

/-- One element matched by the CSS selector, as the scraper observes it. -/
structure Element where
  strongTexts : List String
  text : String
deriving DecidableEq

/-- The loop `for bold_text in p.find("strong"): _b = bold_text.text` —
the variable is reassigned on every iteration, so the final value is the text
of the last strong child, or the initial value when there is none. -/
def foldAssign (b : String) : List String → String
  | [] => b
  | t :: rest => foldAssign t rest

/-- Body of the `for p in abstract_content` loop, lines 90-95. -/
def parsePubEntryOfElement (p : Element) : PubEntry :=
  let b := foldAssign "" p.strongTexts
  { bold_text := b, content_text := pyStrip (pyReplaceDel b p.text) }

/-- Function `parse_pub_entry_data`: one `PubEntry` per matched element, in
document order. -/
def parse_pub_entry_data (abstract_content : List Element) : List PubEntry :=
  abstract_content.map parsePubEntryOfElement

/-- Modelled from the spec, for comparison only: section 4.3 step 2 words the
body as the trimmed element text with the FIRST occurrence of the label
removed, trimmed again.  Auxiliary scan removing only the first occurrence. -/
def specRemoveFirstAux (pat : List Char) : List Char → List Char
  | [] => []
  | c :: rest =>
    if pat.isPrefixOf (c :: rest) then List.drop (pat.length - 1) rest
    else c :: specRemoveFirstAux pat rest

/-- Modelled from the spec, for comparison only: remove the first occurrence
of `pat` (an empty pattern removes nothing). -/
def specRemoveFirst (pat s : List Char) : List Char :=
  match pat with
  | [] => s
  | _ :: _ => specRemoveFirstAux pat s

/-- Modelled from the spec, for comparison only: the body as the claim states
it — trimmed element text, first occurrence of the label removed, re-trimmed. -/
def specBodyFirstOccurrence (label text : String) : String :=
  pyStrip (String.mk (specRemoveFirst label.data (pyStrip text).data))

/-! ## Record assembly (`main`, lines 148-154)

The orchestrator builds the dict
`data = {"url": url, "text": [{"section_i": {"bold_text": b, "content_text": c}}, ...]}`
with one entry of the `text` list per extracted `PubEntry`, indexed by
`enumerate`. -/

/-- One element of the `text` list: the nested per-section dict built at
line 154. -/
structure SectionCell where
  section_index : Nat
  bold_text : String
  content_text : String
deriving DecidableEq

/-- The `data` dict handed to `insert_data`. -/
structure PageData where
  url : String
  text : List SectionCell
deriving DecidableEq

/-- The `for index, entries in enumerate(pub_entry)` loop at lines 151-154. -/
def assembleSections : Nat → List PubEntry → List SectionCell
  | _, [] => []
  | i, entry :: rest =>
    { section_index := i, bold_text := entry.bold_text,
      content_text := entry.content_text } :: assembleSections (i + 1) rest

/-- The whole record-assembly step for one page: url plus enumerated sections. -/
def assemblePageData (url : String) (entries : List PubEntry) : PageData :=
  { url := url, text := assembleSections 0 entries }

/-! ## Store writer (`make_data_dir_if_not_exists` and `insert_data`,
lines 101-129)

The dataset file is modelled as pandas `read_csv` observes it: a zero-byte
file raises `EmptyDataError`; a well-formed CSV yields its rows; content that
is malformed as tabular data (for example an unterminated quoted field or an
inconsistent field count) raises `ParserError`. -/

/-- One row of the CSV dataset: a `url` cell and a `text` cell. -/
structure Row where
  url : String
  cell : SectionCell
deriving DecidableEq

/-- The dataset file content, as distinguished by pandas `read_csv`. -/
inductive CsvFile
  | empty
  | table (rows : List Row)
  | corrupt
deriving DecidableEq

/-- The two `read_csv` failures relevant here.  The code imports and catches
only `EmptyDataError`; `ParserError` is never handled. -/
inductive ReadError
  | emptyData
  | parserError
deriving DecidableEq

/-- pandas `read_csv` on the dataset file. -/
def read_csv : CsvFile → Except ReadError (List Row)
  | .empty => .error .emptyData
  | .table rows => .ok rows
  | .corrupt => .error .parserError

/-- pandas `DataFrame.from_dict({"url": u, "text": cells})` at line 121: the
scalar `url` is broadcast against the `text` list, producing one row per list
element — and zero rows when the list is empty. -/
def dataFrameFromDict (url : String) (text : List SectionCell) : List Row :=
  text.map (fun cell => { url := url, cell := cell })

/-- Function `insert_data`: build the new rows, load the existing dataset
(substituting an empty frame only on `EmptyDataError`), concatenate, and
rewrite the file.  A `ParserError` from `read_csv` is not caught and
propagates, aborting the call before any write. -/
def insert_data (data : PageData) (file : CsvFile) : Except ReadError CsvFile :=
  let new_data := dataFrameFromDict data.url data.text
  match read_csv file with
  | .ok rows => .ok (.table (rows ++ new_data))
  | .error .emptyData => .ok (.table ([] ++ new_data))
  | .error .parserError => .error .parserError

/-- Row count of the on-disk dataset. -/
def rowCount : CsvFile → Nat
  | .empty => 0
  | .table rows => rows.length
  | .corrupt => 0

/-- The directory and dataset file as `make_data_dir_if_not_exists` sees them:
whether `output/` exists, and the dataset file content when present. -/
structure FS where
  outputDirExists : Bool
  dataFile : Option CsvFile
deriving DecidableEq

/-- Function `make_data_dir_if_not_exists`: create the directory when absent,
then create a zero-byte dataset file when absent; an existing file is left
untouched. -/
def make_data_dir_if_not_exists (fs : FS) : FS :=
  let fs1 := if fs.outputDirExists then fs else { fs with outputDirExists := true }
  match fs1.dataFile with
  | some _ => fs1
  | none => { fs1 with dataFile := some .empty }

/-! ## Config loader (`get_params`, lines 23-45)

Python control-flow semantics matter here.  On a missing file the handler
prints the error and calls `sys.exit(3)`, which raises `SystemExit(3)`; the
`finally` block then executes and its first statement reads the local
`params`, which was never assigned, raising `UnboundLocalError` — an exception
raised in a `finally` block replaces the pending one, so the process dies from
the uncaught `UnboundLocalError` (interpreter exit status 1), not from
`SystemExit(3)`.  On success the `return p` inside `finally` produces the
result. -/

/-- The `scrape-params` table of `request.toml`. -/
structure ScrapeParams where
  research_code : List String
  url : String
  selector : String
deriving DecidableEq

/-- The result dict of `get_params`: the built request urls and the selector. -/
structure Params where
  url : List String
  selector : String
deriving DecidableEq

/-- How a Python call ends: a returned value, a `SystemExit` with the given
status, or an uncaught exception (which makes the interpreter exit with
status 1 after printing a traceback). -/
inductive PyFlow (α : Type)
  | ret (a : α)
  | exit (code : Nat)
  | uncaught (exc : String)
deriving DecidableEq

/-- State of the config file on disk. -/
inductive ConfigState
  | absent
  | present (p : ScrapeParams)
deriving DecidableEq

/-- The message printed by `print(e)` for the missing config file. -/
def fileNotFoundMsg : String := "FileNotFoundError: request.toml"

/-- The list comprehension at line 42: `[_url + code for code in r_code]` —
plain string concatenation, preserving code order. -/
def buildRequestUrls (url : String) (codes : List String) : List String :=
  codes.map (fun code => url ++ code)

/-- The `try` body, lines 31-33: open and parse the config file, binding the
local `params` on success and raising `FileNotFoundError` when absent. -/
def tryClause (cfg : ConfigState) : Except String ScrapeParams :=
  match cfg with
  | .absent => .error fileNotFoundMsg
  | .present p => .ok p

/-- The `finally` block, lines 39-45, given the binding state of the local
`params`: when `params` is unbound (the missing-file path) its very first
statement raises `UnboundLocalError`; otherwise it builds the request urls
and returns the result dict. -/
def finallyClause (params : Option ScrapeParams) : PyFlow Params :=
  match params with
  | none => .uncaught "UnboundLocalError: params"
  | some p => .ret { url := buildRequestUrls p.url p.research_code,
                     selector := p.selector }

/-- Python `finally` semantics: because this `finally` block always either
returns or raises, whatever control flow was pending from the try/except part
(here possibly the `SystemExit(3)` from `sys.exit(3)`) is discarded and the
outcome of the `finally` block wins. -/
def withFinally (_pending : Option (PyFlow Params)) (params : Option ScrapeParams) :
    PyFlow Params :=
  finallyClause params

/-- Function `get_params`: returns the printed messages and the outcome.  On a
missing file the handler prints the error and leaves `SystemExit(3)` pending;
the `finally` block replaces it as described above. -/
def get_params (cfg : ConfigState) : List String × PyFlow Params :=
  match tryClause cfg with
  | .ok p => ([], withFinally none (some p))
  | .error msg => ([msg], withFinally (some (.exit 3)) none)

/-! ## Fetcher (`html_session`, lines 48-67)

The generator opens a session, issues the GET inside `try`, compares the
integer `response.status_code` with the string literal "404" (a comparison
between an int and a str, which in Python is always unequal), yields the
response when the comparison says "not 404", and closes the session in
`finally`.  The model records whether the response was yielded to the caller,
whether the session ended closed, and how the call ended.  The body of the
surrounding `with` statement runs at the yield point; an `HTTPError` it raises
is caught by the `except` clause, any other exception propagates — in every
case the `finally` clause runs. -/

/-- A Python value as compared by `!=`: the scraper compares an int status
code against a string literal. -/
inductive PyVal
  | int (n : Int)
  | str (s : String)
deriving DecidableEq

/-- Python `==` across int and str: values of different types are unequal. -/
def pyEq : PyVal → PyVal → Bool
  | .int a, .int b => a == b
  | .str a, .str b => a == b
  | _, _ => false

/-- Python `!=`. -/
def pyNe (a b : PyVal) : Bool := !pyEq a b

/-- Outcome of `session.get(request_url)`. -/
inductive GetResult
  | ok
  | raisesHTTPError
  | raisesOther
deriving DecidableEq

/-- Outcome of the `with` body while the response is in use at the yield. -/
inductive BodyResult
  | completes
  | raisesHTTPError
  | raisesOther
deriving DecidableEq

/-- How one `html_session` use ends. -/
inductive SessionOutcome
  | completed
  | exitRun (code : Nat)
  | uncaughtExc
deriving DecidableEq

/-- Observable trace of one `html_session` use. -/
structure SessionTrace where
  sessionClosed : Bool
  yielded : Bool
  outcome : SessionOutcome
deriving DecidableEq

/-- The try/except part of `html_session`, before `finally` runs: returns
whether the response was yielded and the pending outcome. -/
def htmlSessionTryExcept (status : Int) (g : GetResult) (b : BodyResult) :
    Bool × SessionOutcome :=
  match g with
  | .raisesHTTPError => (false, .exitRun 3)
  | .raisesOther => (false, .uncaughtExc)
  | .ok =>
    if pyNe (.int status) (.str "404") then
      match b with
      | .completes => (true, .completed)
      | .raisesHTTPError => (true, .exitRun 3)
      | .raisesOther => (true, .uncaughtExc)
    else
      (false, .exitRun 3)

/-- Function `html_session`: the session is opened, the try/except part runs,
and the `finally` clause closes the session on every one of these paths —
normal completion, the caught `HTTPError` (whose handler calls `sys.exit(3)`,
raising `SystemExit` through the `finally`), and any uncaught exception. -/
def html_session (status : Int) (g : GetResult) (b : BodyResult) : SessionTrace :=
  let tr := htmlSessionTryExcept status g b
  { sessionClosed := true, yielded := tr.1, outcome := tr.2 }

/-! ## Helper lemmas -/

/-- Repeated reassignment in a loop keeps only the last element. -/
theorem foldAssign_eq_getLastD (l : List String) (b : String) :
    foldAssign b l = l.getLastD b := by
  induction l generalizing b with
  | nil => rfl
  | cons t rest ih =>
    rw [foldAssign, ih]
    cases rest <;> simp [List.getLastD]

/-- The head surviving `dropWhile` fails the predicate. -/
theorem dropWhile_head_not_ws (l : List Char) (c : Char) (rest : List Char)
    (h : l.dropWhile Char.isWhitespace = c :: rest) : c.isWhitespace = false := by
  induction l with
  | nil => simp at h
  | cons a t ih =>
    by_cases ha : a.isWhitespace
    · rw [List.dropWhile_cons_of_pos ha] at h
      exact ih h
    · rw [List.dropWhile_cons_of_neg ha] at h
      cases h
      simpa using ha

/-- The last character surviving `dropTrailingWs` is not whitespace. -/
theorem dropTrailingWs_getLast_not_ws (l : List Char) (c : Char)
    (h : (dropTrailingWs l).getLast? = some c) : c.isWhitespace = false := by
  induction l with
  | nil => simp [dropTrailingWs] at h
  | cons a t ih =>
    rcases he : dropTrailingWs t with _ | ⟨b, r⟩
    · rw [dropTrailingWs, he] at h
      by_cases ha : a.isWhitespace
      · simp [ha] at h
      · simp [ha] at h
        simpa [h.symm] using ha
    · rw [dropTrailingWs, he, List.getLast?_cons_cons] at h
      exact ih (by rw [he]; exact h)

/-- `dropTrailingWs` removes characters only from the end, so it preserves the
head when the result is non-empty. -/
theorem dropTrailingWs_head (l : List Char) (c : Char)
    (h : (dropTrailingWs l).head? = some c) : l.head? = some c := by
  cases l with
  | nil => simp [dropTrailingWs] at h
  | cons a t =>
    rcases he : dropTrailingWs t with _ | ⟨b, r⟩
    · rw [dropTrailingWs, he] at h
      by_cases ha : a.isWhitespace
      · simp [ha] at h
      · simp [ha] at h
        simp [h]
    · rw [dropTrailingWs, he] at h
      simp at h
      simp [h]

/-- Python `strip` leaves no whitespace at either end of its result. -/
theorem pyStrip_noWs (s : String) :
    noLeadingWs (pyStrip s) = true ∧ noTrailingWs (pyStrip s) = true := by
  constructor
  · rw [noLeadingWs]
    rcases hh : (pyStrip s).data with _ | ⟨c, rest⟩
    · simp
    · have hd : (pyStripList s.data).head? = some c := by
        have : (pyStrip s).data = pyStripList s.data := rfl
        rw [this] at hh
        simp [hh]
      have hd2 : ((s.data.dropWhile Char.isWhitespace).head? = some c) :=
        dropTrailingWs_head _ _ hd
      rcases he : s.data.dropWhile Char.isWhitespace with _ | ⟨c2, r2⟩
      · rw [he] at hd2; simp at hd2
      · rw [he] at hd2
        simp at hd2
        have := dropWhile_head_not_ws s.data c2 r2 he
        rw [hd2] at this
        simp [this]
  · rw [noTrailingWs]
    rcases hh : (pyStrip s).data.getLast? with _ | c
    · simp
    · have hd : (pyStripList s.data).getLast? = some c := hh
      have := dropTrailingWs_getLast_not_ws _ _ hd
      simp [this]

/-- Python replace with an empty pattern and empty replacement is the
identity. -/
theorem pyReplaceDel_empty (t : String) : pyReplaceDel "" t = t := rfl

/-! ## Claim theorems -/

/-- C1, counterexample: on an element with two strong children of texts "A:"
and "B:", the extracted label is "B:" — the text of the LAST strong child,
already trimmed — and not the trimmed text "A:" of the first strong child,
refuting the claim as stated. -/
theorem C1_counterexample :
    (parse_pub_entry_data [⟨["A:", "B:"], "A: B: x"⟩]).map PubEntry.bold_text = ["B:"]
      ∧ pyStrip "A:" = "A:" ∧ ("B:" : String) ≠ "A:" :=
  ⟨by decide, by decide, by decide⟩

/-- C1, amended: for every matched element, the extracted label is the text of
the LAST strong inline child of that element, and the empty string when the
element has no such child. -/
theorem C1_label_is_last (ps : List Element) :
    (parse_pub_entry_data ps).map PubEntry.bold_text
      = ps.map (fun p => p.strongTexts.getLastD "") := by
  induction ps with
  | nil => rfl
  | cons p rest ih =>
    simp only [parse_pub_entry_data, List.map_cons] at ih ⊢
    simp [parsePubEntryOfElement, foldAssign_eq_getLastD, ih]

/-- C3, counterexample: on an element whose label "ab" occurs twice in the
text "ab x ab", the code removes ALL occurrences and extracts the body "x",
while the claimed first-occurrence removal would give "x ab" — refuting the
claim as stated. -/
theorem C3_counterexample :
    (parse_pub_entry_data [⟨["ab"], "ab x ab"⟩]).map PubEntry.content_text = ["x"]
      ∧ specBodyFirstOccurrence "ab" "ab x ab" = "x ab"
      ∧ ("x" : String) ≠ "x ab" :=
  ⟨by decide, by decide, by decide⟩

/-- C3, amended: for every matched element, the extracted body equals the
element text with ALL occurrences of the label removed and the result
trimmed; consequently the body never starts or ends with whitespace. -/
theorem C3_body (ps : List Element) (entry : PubEntry)
    (h : entry ∈ parse_pub_entry_data ps) :
    (∃ p, p ∈ ps ∧ entry.bold_text = p.strongTexts.getLastD ""
        ∧ entry.content_text = pyStrip (pyReplaceDel entry.bold_text p.text))
      ∧ noLeadingWs entry.content_text = true
      ∧ noTrailingWs entry.content_text = true := by
  rw [parse_pub_entry_data, List.mem_map] at h
  obtain ⟨p, hp, he⟩ := h
  have hb : entry.bold_text = p.strongTexts.getLastD "" := by
    rw [← he]
    simp [parsePubEntryOfElement, foldAssign_eq_getLastD]
  have hc : entry.content_text = pyStrip (pyReplaceDel entry.bold_text p.text) := by
    rw [← he]
    rfl
  refine ⟨⟨p, hp, hb, hc⟩, ?_, ?_⟩
  · rw [hc]; exact (pyStrip_noWs _).1
  · rw [hc]; exact (pyStrip_noWs _).2

/-- C3, witness: the amended theorem instantiated on a concrete element. -/
theorem C3_witness :
    ((⟨"ab", "x"⟩ : PubEntry) ∈ parse_pub_entry_data [⟨["ab"], "ab x ab"⟩])
      ∧ ((∃ p, p ∈ [(⟨["ab"], "ab x ab"⟩ : Element)]
            ∧ (⟨"ab", "x"⟩ : PubEntry).bold_text = p.strongTexts.getLastD ""
            ∧ (⟨"ab", "x"⟩ : PubEntry).content_text
                = pyStrip (pyReplaceDel (⟨"ab", "x"⟩ : PubEntry).bold_text p.text))
          ∧ noLeadingWs (⟨"ab", "x"⟩ : PubEntry).content_text = true
          ∧ noTrailingWs (⟨"ab", "x"⟩ : PubEntry).content_text = true) :=
  ⟨by decide, C3_body _ _ (by decide)⟩

/-- C10: for every matched element with no strong child, the emitted segment
has an empty label and its body is the whole element text trimmed — the
removal step with an empty label is the identity and loses no text. -/
theorem C10_no_strong (ps : List Element) (i : Nat) (hi : i < ps.length)
    (hno : ps[i].strongTexts = []) :
    (parse_pub_entry_data ps)[i]? = some ⟨"", pyStrip ps[i].text⟩ := by
  have h1 : (parse_pub_entry_data ps)[i]? = some (parsePubEntryOfElement ps[i]) := by
    simp [parse_pub_entry_data, List.getElem?_eq_getElem, hi]
  rw [h1]
  have hb : parsePubEntryOfElement ps[i] = ⟨"", pyStrip ps[i].text⟩ := by
    simp [parsePubEntryOfElement, hno, foldAssign, pyReplaceDel_empty]
  rw [hb]

/-- C10, witness: the theorem instantiated on a concrete element with no
strong child; the whole trimmed text survives as the body. -/
theorem C10_witness :
    (0 < ([(⟨[], "  hi  "⟩ : Element)] : List Element).length)
      ∧ (parse_pub_entry_data [(⟨[], "  hi  "⟩ : Element)])[0]?
          = some ⟨"", pyStrip "  hi  "⟩ :=
  ⟨by decide, C10_no_strong [⟨[], "  hi  "⟩] 0 (by decide) (by decide)⟩

/-- C2, counterexample: a page whose selector matched nothing yields a record
with an empty section list, and the Store Writer call appends ZERO rows, not
one — the scalar url is broadcast against the empty text list. -/
theorem C2_counterexample :
    insert_data (assemblePageData "u" (parse_pub_entry_data [])) CsvFile.empty
        = Except.ok (CsvFile.table [])
      ∧ rowCount (CsvFile.table []) = 0 :=
  ⟨rfl, rfl⟩

/-- C2, amended: one Store Writer call appends exactly one row per extracted
section (the url repeated in each), so the row count grows by the length of
the section list — zero rows for a zero-section page. -/
theorem C2_rows_per_section (data : PageData) (rows : List Row) :
    insert_data data (CsvFile.table rows)
        = Except.ok (CsvFile.table (rows ++ dataFrameFromDict data.url data.text))
      ∧ rowCount (CsvFile.table (rows ++ dataFrameFromDict data.url data.text))
          = rowCount (CsvFile.table rows) + data.text.length
      ∧ insert_data data CsvFile.empty
          = Except.ok (CsvFile.table (dataFrameFromDict data.url data.text)) := by
  refine ⟨rfl, ?_, rfl⟩
  simp [rowCount, dataFrameFromDict]

/-- C4: evaluation at the failing input — a response with the integer status
code 404 is still yielded to the caller and the run completes, because the
code compares the integer status against the string "404", which in Python is
never equal; the claimed fatal FetchError branch is unreachable. -/
theorem C4_code_eval :
    (html_session 404 GetResult.ok BodyResult.completes).yielded = true
      ∧ (html_session 404 GetResult.ok BodyResult.completes).outcome
          = SessionOutcome.completed
      ∧ pyNe (PyVal.int 404) (PyVal.str "404") = true :=
  ⟨rfl, rfl, rfl⟩

/-- C5: evaluation at the failing input — with the config file absent, the
error is printed, but the finally block then reads the unbound local and the
call ends in an uncaught UnboundLocalError (interpreter exit status 1), not in
the claimed SystemExit with status 3. -/
theorem C5_code_eval :
    (get_params ConfigState.absent).1 = [fileNotFoundMsg]
      ∧ (get_params ConfigState.absent).2
          = PyFlow.uncaught "UnboundLocalError: params"
      ∧ (get_params ConfigState.absent).2 ≠ PyFlow.exit 3 :=
  ⟨rfl, rfl, by decide⟩

/-- C6: dataset initialization leaves an existing dataset file untouched and
creates the directory and an empty file only when absent, and one Store
Writer call rewrites all prior rows verbatim, in order, as a prefix of the
new table. -/
theorem C6_prior_rows_preserved (fs : FS) (f : CsvFile) (h : fs.dataFile = some f)
    (data : PageData) (rows : List Row) :
    (make_data_dir_if_not_exists fs).dataFile = some f
      ∧ insert_data data (CsvFile.table rows)
          = Except.ok (CsvFile.table (rows ++ dataFrameFromDict data.url data.text))
      ∧ make_data_dir_if_not_exists ⟨false, none⟩ = ⟨true, some CsvFile.empty⟩ := by
  refine ⟨?_, rfl, rfl⟩
  by_cases hd : fs.outputDirExists <;>
    simp [make_data_dir_if_not_exists, hd, h]

/-- C6, witness: the theorem instantiated on a one-row dataset. -/
theorem C6_witness :
    ((⟨true, some (CsvFile.table [⟨"u0", ⟨0, "b", "c"⟩⟩])⟩ : FS).dataFile
        = some (CsvFile.table [⟨"u0", ⟨0, "b", "c"⟩⟩]))
      ∧ ((make_data_dir_if_not_exists
            ⟨true, some (CsvFile.table [⟨"u0", ⟨0, "b", "c"⟩⟩])⟩).dataFile
            = some (CsvFile.table [⟨"u0", ⟨0, "b", "c"⟩⟩])
        ∧ insert_data ⟨"u1", [⟨0, "x", "y"⟩]⟩ (CsvFile.table [⟨"u0", ⟨0, "b", "c"⟩⟩])
            = Except.ok (CsvFile.table
                ([⟨"u0", ⟨0, "b", "c"⟩⟩] ++ dataFrameFromDict "u1" [⟨0, "x", "y"⟩]))
        ∧ make_data_dir_if_not_exists ⟨false, none⟩ = ⟨true, some CsvFile.empty⟩) :=
  ⟨by decide, C6_prior_rows_preserved _ _ (by decide) ⟨"u1", [⟨0, "x", "y"⟩]⟩ _⟩

/-- C7, counterexample: a dataset file that exists but is unreadable as
tabular data for a reason other than being empty makes the Store Writer
propagate the ParserError instead of recovering with zero rows — refuting the
claim for the unreadable case. -/
theorem C7_counterexample :
    insert_data ⟨"u", [⟨0, "b", "c"⟩]⟩ CsvFile.corrupt
      = Except.error ReadError.parserError := rfl

/-- C7, amended: only a genuinely empty dataset file is recovered locally as
zero existing rows (pandas EmptyDataError is the sole caught failure), so a
write against a freshly created empty file succeeds and yields exactly the
newly built rows; any other unreadable file propagates its ParserError. -/
theorem C7_empty_recovered (data : PageData) :
    insert_data data CsvFile.empty
        = Except.ok (CsvFile.table (dataFrameFromDict data.url data.text))
      ∧ insert_data data CsvFile.corrupt = Except.error ReadError.parserError :=
  ⟨rfl, rfl⟩

/-- C8: the config loader returns the RequestTarget list built by plain string
concatenation of the url template with each code, in config order: the list
has one url per code and the url at every position i is the template followed
by the code at position i.  Building is a pure Lean function, so the same
template and codes always yield the same strings. -/
theorem C8_request_urls (u sel : String) (codes : List String) (i : Nat)
    (hi : i < codes.length) :
    (get_params (ConfigState.present ⟨codes, u, sel⟩)).2
        = PyFlow.ret ⟨buildRequestUrls u codes, sel⟩
      ∧ (buildRequestUrls u codes).length = codes.length
      ∧ (buildRequestUrls u codes).get ⟨i, by simpa [buildRequestUrls] using hi⟩
          = u ++ codes.get ⟨i, hi⟩ := by
  refine ⟨rfl, by simp [buildRequestUrls], ?_⟩
  simp [buildRequestUrls]

/-- C8, witness: the theorem instantiated on the scenario of the spec. -/
theorem C8_witness :
    (0 < (["100", "101"] : List String).length)
      ∧ ((get_params (ConfigState.present
            ⟨["100", "101"], "https://example.org/", ".abstract"⟩)).2
            = PyFlow.ret ⟨buildRequestUrls "https://example.org/" ["100", "101"],
                ".abstract"⟩
        ∧ (buildRequestUrls "https://example.org/" ["100", "101"]).length
            = (["100", "101"] : List String).length
        ∧ (buildRequestUrls "https://example.org/" ["100", "101"]).get ⟨0, by decide⟩
            = "https://example.org/" ++ (["100", "101"] : List String).get ⟨0, by decide⟩) :=
  ⟨by decide, C8_request_urls "https://example.org/" ".abstract" ["100", "101"] 0 (by decide)⟩

/-- C9: the transport session is closed on every exit path of one fetch —
normal completion of the with-body, the caught HTTPError that exits the run,
and any other exception raised while the response is in use — because the
close sits in the finally clause. -/
theorem C9_session_closed (status : Int) (g : GetResult) (b : BodyResult) :
    (html_session status g b).sessionClosed = true := rfl

end Pubmed
